import Mathlib

set_option linter.unusedVariables false

/-
Verification development for the crmint CLI provisioning orchestrator
(files cli/utils/settings.py, cli/commands/stages.py, cli/commands/cloud.py).

The Python modules are shallowly embedded as follows.

Environment variables, the stage-file directory and the legacy script
directory are explicit state (`List (String × String)` association lists
and the `FS` record).  The external cloud control plane is a record of
booleans (`CloudState`), one per resource the provisioning steps probe
and create; running a read-only existence check is reading the matching
field and running a creation command sets it.  Every call of
shared.execute_command made by a provisioning step is recorded in a
trace (`Event`): existence checks (those invoked with
report_empty_err=False, plus the service-account file check) become
`Event.probe`, all other invocations become `Event.act`, carrying the
description string passed in the source.

Python exceptions are modelled with `Except` / the `PyErr` type:
a module attribute access becomes a lookup in a partial map, so reading
an attribute that settings.py never assigns yields
`PyErr.attributeError`, exactly like CPython.  `exit(n)` and an
uncaught exception both terminate the process; the `Outcome` type keeps
them apart (CPython exits with status 1 on an uncaught exception).

Repository code that is imported by the three files but is not part of
them (cli/utils/shared.py, cli/utils/constants.py,
cli/utils/stage_file_template.py) is modelled from the spec where it is
needed; each such definition carries a doc comment starting with
"Modelled from the spec:".
-/

namespace Crmint

/-- Python exception classes that the embedded code can raise. -/
inductive PyErr where
  | valueError (msg : String)
  | attributeError (attr : String)
  | typeError (msg : String)
  | nameError (ident : String)
deriving DecidableEq, Repr

/-- A scalar value stored in a stage context: settings.py holds strings
and booleans. -/
inductive StageValue where
  | str (s : String)
  | bool (b : Bool)
deriving DecidableEq, Repr

/-- First-match lookup in an association list, the semantics of reading
a Python dict entry or os.environ. -/
def dictLookup {α : Type} (d : List (String × α)) (k : String) : Option α :=
  (d.find? (fun p => p.1 == k)).map (fun p => p.2)

/-- Python dict assignment d[k] = v: overwrite the existing entry in
place, otherwise append. -/
def dictSet {α : Type} (d : List (String × α)) (k : String) (v : α) :
    List (String × α) :=
  if d.any (fun p => p.1 == k) then
    d.map (fun p => if p.1 == k then (k, v) else p)
  else
    d ++ [(k, v)]

/-- Python dict.update(overlay): assign every overlay entry in order. -/
def dictUpdate {α : Type} (base overlay : List (String × α)) :
    List (String × α) :=
  overlay.foldl (fun b p => dictSet b p.1 p.2) base

/-- The inputs fixed when the settings module is imported: the process
environment, and the values produced by code outside the three source
files.  `defaultStageName` stands for shared.get_default_stage_name()
and `defaultAppTitle` for the title-cased variant of it used as the
GAE_APP_TITLE fallback (shared.py is not under src); `randomPassword`
stands for the 16-character random password generated at import time. -/
structure SettingsInput where
  env : List (String × String)
  defaultStageName : String
  defaultAppTitle : String
  randomPassword : String
deriving DecidableEq, Repr

/-- os.getenv(k, d) / os.environ.get(k, d). -/
def osGetenv (st : SettingsInput) (k d : String) : String :=
  (dictLookup st.env k).getD d

/-- settings.DEBUG = (os.getenv("DEBUG", "False") == "True"). -/
def DEBUG (st : SettingsInput) : Bool :=
  osGetenv st "DEBUG" "False" == "True"

/-- settings.PROJECT. -/
def PROJECT (st : SettingsInput) : String :=
  (dictLookup st.env "PROJECT").getD st.defaultStageName

/-- settings.REGION. -/
def REGION (st : SettingsInput) : String :=
  osGetenv st "REGION" "us-central1"

/-- settings.DATABASE_NAME. -/
def DATABASE_NAME (st : SettingsInput) : String :=
  osGetenv st "DATABASE_NAME" "crmintapp-db"

/-- settings.DATABASE_INSTANCE_NAME defaults to DATABASE_NAME. -/
def DATABASE_INSTANCE_NAME (st : SettingsInput) : String :=
  (dictLookup st.env "DATABASE_INSTANCE_NAME").getD (DATABASE_NAME st)

/-- settings.DATABASE_USER. -/
def DATABASE_USER (st : SettingsInput) : String :=
  osGetenv st "DATABASE_USER" "crmintapp"

/-- settings.DATABASE_PASSWORD defaults to the random password. -/
def DATABASE_PASSWORD (st : SettingsInput) : String :=
  (dictLookup st.env "DATABASE_PASSWORD").getD st.randomPassword

/-- settings.DATABASE_PUBLIC_IP = (os.getenv(..., "False") == "True"). -/
def DATABASE_PUBLIC_IP (st : SettingsInput) : Bool :=
  osGetenv st "DATABASE_PUBLIC_IP" "False" == "True"

/-- settings.DATABASE_BACKUP_ENABLED = (os.getenv(..., "False") == "True"). -/
def DATABASE_BACKUP_ENABLED (st : SettingsInput) : Bool :=
  osGetenv st "DATABASE_BACKUP_ENABLED" "False" == "True"

/-- settings.DATABASE_HA_ENABLED = (os.getenv("DATABASE_HA_ENABLED", "True") == "False"),
transcribed exactly as written in settings.py line 43. -/
def DATABASE_HA_ENABLED (st : SettingsInput) : Bool :=
  osGetenv st "DATABASE_HA_ENABLED" "True" == "False"

/-- settings.DATABASE_REGION defaults to REGION. -/
def DATABASE_REGION (st : SettingsInput) : String :=
  (dictLookup st.env "DATABASE_REGION").getD (REGION st)

/-- settings.DATABASE_TIER. -/
def DATABASE_TIER (st : SettingsInput) : String :=
  osGetenv st "DATABASE_TIER" "db-g1-small"

/-- settings.DATABASE_PROJECT defaults to PROJECT. -/
def DATABASE_PROJECT (st : SettingsInput) : String :=
  (dictLookup st.env "DATABASE_PROJECT").getD (PROJECT st)

/-- settings.NETWORK. -/
def NETWORK (st : SettingsInput) : String :=
  osGetenv st "NETWORK" "crmint-vpc"

/-- settings.SUBNET defaults to "crmint-{REGION}-subnet". -/
def SUBNET (st : SettingsInput) : String :=
  (dictLookup st.env "SUBNET").getD ("crmint-" ++ REGION st ++ "-subnet")

/-- settings.SUBNET_CIDR. -/
def SUBNET_CIDR (st : SettingsInput) : String :=
  osGetenv st "SUBNET_CIDR" "10.0.0.0/28"

/-- settings.CONNECTOR. -/
def CONNECTOR (st : SettingsInput) : String :=
  osGetenv st "CONNECTOR" "crmint-vpc-serverless-connector"

/-- settings.CONNECTOR_CIDR. -/
def CONNECTOR_CIDR (st : SettingsInput) : String :=
  osGetenv st "CONNECTOR_CIDR" "10.0.0.16/28"

/-- settings.NETWORK_SERVICE_PROJECT defaults to PROJECT. -/
def NETWORK_SERVICE_PROJECT (st : SettingsInput) : String :=
  (dictLookup st.env "NETWORK_SERVICE_PROJECT").getD (PROJECT st)

/-- settings.NETWORK_HOST_PROJECT defaults to PROJECT. -/
def NETWORK_HOST_PROJECT (st : SettingsInput) : String :=
  (dictLookup st.env "NETWORK_HOST_PROJECT").getD (PROJECT st)

/-- settings.GAE_PROJECT defaults to PROJECT. -/
def GAE_PROJECT (st : SettingsInput) : String :=
  (dictLookup st.env "GAE_PROJECT").getD (PROJECT st)

/-- settings.GAE_REGION defaults to REGION. -/
def GAE_REGION (st : SettingsInput) : String :=
  (dictLookup st.env "GAE_REGION").getD (REGION st)

/-- settings.GAE_APP_TITLE defaults to the title-cased default stage name. -/
def GAE_APP_TITLE (st : SettingsInput) : String :=
  (dictLookup st.env "GAE_APP_TITLE").getD st.defaultAppTitle

/-- The attribute table of the settings module: exactly the module-level
names that settings.py assigns.  Names that stages.py reads but
settings.py never defines (SUBNET_REGION, CONNECTOR_SUBNET,
CONNECTOR_MIN_INSTANCES, CONNECTOR_MAX_INSTANCES,
CONNECTOR_MACHINE_TYPE, NETWORK_PROJECT) are absent, so reading them
raises AttributeError, as in CPython. -/
def settingsAttr (st : SettingsInput) (n : String) : Option StageValue :=
  if n = "DEBUG" then some (.bool (DEBUG st))
  else if n = "PROJECT" then some (.str (PROJECT st))
  else if n = "REGION" then some (.str (REGION st))
  else if n = "random_password" then some (.str st.randomPassword)
  else if n = "DATABASE_NAME" then some (.str (DATABASE_NAME st))
  else if n = "DATABASE_INSTANCE_NAME" then some (.str (DATABASE_INSTANCE_NAME st))
  else if n = "DATABASE_USER" then some (.str (DATABASE_USER st))
  else if n = "DATABASE_PASSWORD" then some (.str (DATABASE_PASSWORD st))
  else if n = "DATABASE_PUBLIC_IP" then some (.bool (DATABASE_PUBLIC_IP st))
  else if n = "DATABASE_BACKUP_ENABLED" then some (.bool (DATABASE_BACKUP_ENABLED st))
  else if n = "DATABASE_HA_ENABLED" then some (.bool (DATABASE_HA_ENABLED st))
  else if n = "DATABASE_REGION" then some (.str (DATABASE_REGION st))
  else if n = "DATABASE_TIER" then some (.str (DATABASE_TIER st))
  else if n = "DATABASE_PROJECT" then some (.str (DATABASE_PROJECT st))
  else if n = "NETWORK" then some (.str (NETWORK st))
  else if n = "SUBNET" then some (.str (SUBNET st))
  else if n = "SUBNET_CIDR" then some (.str (SUBNET_CIDR st))
  else if n = "CONNECTOR" then some (.str (CONNECTOR st))
  else if n = "CONNECTOR_CIDR" then some (.str (CONNECTOR_CIDR st))
  else if n = "NETWORK_SERVICE_PROJECT" then some (.str (NETWORK_SERVICE_PROJECT st))
  else if n = "NETWORK_HOST_PROJECT" then some (.str (NETWORK_HOST_PROJECT st))
  else if n = "GAE_PROJECT" then some (.str (GAE_PROJECT st))
  else if n = "GAE_REGION" then some (.str (GAE_REGION st))
  else if n = "GAE_APP_TITLE" then some (.str (GAE_APP_TITLE st))
  else none

/-- Reading an attribute of the settings module. -/
def settingsGetattr (st : SettingsInput) (n : String) : Except PyErr StageValue :=
  match settingsAttr st n with
  | some v => .ok v
  | none => .error (.attributeError n)

/-- stages._default_stage_context(stage_name): the dict literal of
stages.py lines 33 to 64.  The settings attributes are read in the
evaluation order of the dict arguments, so the first failing read wins. -/
def _default_stage_context (st : SettingsInput) (stageName : String) :
    Except PyErr (List (String × StageValue)) := do
  let project_id ← settingsGetattr st "PROJECT"
  let project_region ← settingsGetattr st "REGION"
  let database_name ← settingsGetattr st "DATABASE_NAME"
  let database_region ← settingsGetattr st "DATABASE_REGION"
  let database_tier ← settingsGetattr st "DATABASE_TIER"
  let database_username ← settingsGetattr st "DATABASE_USER"
  let database_password ← settingsGetattr st "DATABASE_PASSWORD"
  let database_instance_name ← settingsGetattr st "DATABASE_INSTANCE_NAME"
  let database_public_ip ← settingsGetattr st "DATABASE_PUBLIC_IP"
  let database_backup_enabled ← settingsGetattr st "DATABASE_BACKUP_ENABLED"
  let database_ha_enabled ← settingsGetattr st "DATABASE_HA_ENABLED"
  let database_project ← settingsGetattr st "DATABASE_PROJECT"
  let network ← settingsGetattr st "NETWORK"
  let subnet ← settingsGetattr st "SUBNET"
  let subnet_region ← settingsGetattr st "SUBNET_REGION"
  let subnet_cidr ← settingsGetattr st "SUBNET_CIDR"
  let connector ← settingsGetattr st "CONNECTOR"
  let connector_subnet ← settingsGetattr st "CONNECTOR_SUBNET"
  let connector_cidr ← settingsGetattr st "CONNECTOR_CIDR"
  let connector_min_instances ← settingsGetattr st "CONNECTOR_MIN_INSTANCES"
  let connector_max_instances ← settingsGetattr st "CONNECTOR_MAX_INSTANCES"
  let connector_machine_type ← settingsGetattr st "CONNECTOR_MACHINE_TYPE"
  let network_project ← settingsGetattr st "NETWORK_PROJECT"
  let gae_project ← settingsGetattr st "GAE_PROJECT"
  let gae_region ← settingsGetattr st "GAE_REGION"
  let gae_app_title ← settingsGetattr st "GAE_APP_TITLE"
  return [("service_account_file", .str (stageName ++ ".json")),
          ("project_id", project_id),
          ("project_region", project_region),
          ("workdir", .str ("/tmp/" ++ stageName)),
          ("database_name", database_name),
          ("database_region", database_region),
          ("database_tier", database_tier),
          ("database_username", database_username),
          ("database_password", database_password),
          ("database_instance_name", database_instance_name),
          ("database_public_ip", database_public_ip),
          ("database_backup_enabled", database_backup_enabled),
          ("database_ha_enabled", database_ha_enabled),
          ("database_project", database_project),
          ("network", network),
          ("subnet", subnet),
          ("subnet_region", subnet_region),
          ("subnet_cidr", subnet_cidr),
          ("connector", connector),
          ("connector_subnet", connector_subnet),
          ("connector_cidr", connector_cidr),
          ("connector_min_instances", connector_min_instances),
          ("connector_max_instances", connector_max_instances),
          ("connector_machine_type", connector_machine_type),
          ("network_project", network_project),
          ("gae_project", gae_project),
          ("gae_region", gae_region),
          ("gae_app_title", gae_app_title),
          ("notification_sender_email",
           .str ("noreply@" ++ stageName ++ ".appspotmail.com"))]

/-- A current-format (python) stage file as seen by
shared.get_stage_object: the optional spec_version attribute consulted
by _detect_stage_version, and the stored field values. -/
structure PyStage where
  specVersion : Option String
  content : List (String × StageValue)
deriving DecidableEq, Repr

/-- The persistent state the stage commands touch: the stage directory
holding current-format files keyed by stage name, and the legacy script
directory (scripts/variables/stages).  A legacy entry carries the
stdout captured when the Command Executor sources the script and runs
set, which is the external input _parse_old_stage_file consumes. -/
structure FS where
  pyStages : List (String × PyStage)
  shStages : List (String × String)
deriving DecidableEq, Repr

/-- Lookup of the current-format stage file for a name. -/
def getPyStage (fs : FS) (n : String) : Option PyStage :=
  dictLookup fs.pyStages n

/-- Modelled from the spec: shared.check_stage_file (shared.py is not
under src) answers whether a persisted current-format configuration
exists under the given name. -/
def check_stage_file (fs : FS) (n : String) : Bool :=
  (getPyStage fs n).isSome

/-- stages.SUPPORTED_STAGE_VERSIONS. -/
def SUPPORTED_STAGE_VERSIONS : List String := ["v1.0", "v2.0"]

/-- The message of the ValueError raised for an unsupported version tag,
stages.py lines 93 to 96. -/
def unsupportedVersionMsg (v : String) : String :=
  "Unsupported spec version: \x27" ++ v ++
    "\x27. Supported versions are (\x27v1.0\x27, \x27v2.0\x27)"

/-- stages._detect_stage_version: check for a current-format file
first; read its spec_version attribute with default v2.0 and reject
tags outside the supported set; otherwise fall back to a legacy script;
otherwise report that no stage file exists. -/
def _detect_stage_version (fs : FS) (stageName : String) :
    Except PyErr (String × String) :=
  match getPyStage fs stageName with
  | some stage =>
    let v := stage.specVersion.getD "v2.0"
    if v ∈ SUPPORTED_STAGE_VERSIONS then
      .ok (v, stageName ++ ".py")
    else
      .error (.valueError (unsupportedVersionMsg v))
  | none =>
    match dictLookup fs.shStages stageName with
    | some _ => .ok ("v1.0", "scripts/variables/stages/" ++ stageName ++ ".sh")
    | none =>
      .error (.valueError ("No stage file found for name: \x27" ++ stageName ++ "\x27"))

/-- Split a character list at every occurrence of the separator, the
semantics of the Python str.split call with an explicit separator:
the empty input yields one empty piece and a trailing separator yields
a trailing empty piece. -/
def splitOnChar (c : Char) : List Char → List (List Char)
  | [] => [[]]
  | x :: xs =>
    let r := splitOnChar c xs
    if x = c then [] :: r
    else
      match r with
      | [] => [[x]]
      | h :: t => (x :: h) :: t

/-- One line of the captured set output, split as by
str.partition("="): the key is the text before the first equals sign,
the value the text after it (empty when the line has no equals sign,
matching the parsing loop of _parse_old_stage_file). -/
def partitionLine : List Char → List Char × List Char
  | [] => ([], [])
  | x :: xs =>
    if x = Char.ofNat 61 then ([], xs)
    else
      let r := partitionLine xs
      (x :: r.1, r.2)

/-- The dict built by the parsing loop of _parse_old_stage_file:
one assignment per newline-separated line, later lines overwriting
earlier keys. -/
def parseLegacyOut (out : String) : List (String × String) :=
  (splitOnChar (Char.ofNat 10) out.toList).foldl
    (fun d line =>
      let kv := partitionLine line
      dictSet d (String.mk kv.1) (String.mk kv.2))
    []

/-- stages._parse_old_stage_file: detect the version; for v1.0 source
the legacy script through the Command Executor and parse the captured
set output into a flat mapping; for v2.0 return None.  A stage whose
current-format file is tagged v1.0 would be sourced as well; the model
reads the captured output from the legacy directory and falls back to
the empty capture in that (unused) corner. -/
def _parse_old_stage_file (fs : FS) (stageName : String) :
    Except PyErr (Option (List (String × String))) :=
  match _detect_stage_version fs stageName with
  | .error e => .error e
  | .ok (v, _) =>
    if v = "v1.0" then
      .ok (some (parseLegacyOut ((dictLookup fs.shStages stageName).getD "")))
    else
      .ok none

/-- The recognized current-schema fields: the keys of the default
context, which are the placeholders of the stage file template. -/
def recognizedFields : List String :=
  ["service_account_file", "project_id", "project_region", "workdir",
   "database_name", "database_region", "database_tier",
   "database_username", "database_password", "database_instance_name",
   "database_public_ip", "database_backup_enabled",
   "database_ha_enabled", "database_project", "network", "subnet",
   "subnet_region", "subnet_cidr", "connector", "connector_subnet",
   "connector_cidr", "connector_min_instances",
   "connector_max_instances", "connector_machine_type",
   "network_project", "gae_project", "gae_region", "gae_app_title",
   "notification_sender_email"]

/-- Modelled from the spec: stage_file_template.STAGE_FILE_TEMPLATE
(cli/utils/stage_file_template.py is not under src) renders exactly the
recognized current-schema fields; str.format(**context) reads those
keys from the context and silently ignores every other key. -/
def renderStageFile (ctx : List (String × StageValue)) :
    List (String × StageValue) :=
  recognizedFields.filterMap (fun k => (dictLookup ctx k).map (fun v => (k, v)))

/-- stages._create_stage_file(stage_name, context=None): with no
context, build the default context (which can raise); then format the
template with the context and write the result to the stage directory.
The written file carries no explicit spec_version attribute, so
detection applies the v2.0 default to it. -/
def _create_stage_file (st : SettingsInput) (fs : FS) (stageName : String)
    (ctx? : Option (List (String × StageValue))) : Except PyErr FS :=
  match (match ctx? with
         | none => _default_stage_context st stageName
         | some c => .ok c) with
  | .error e => .error e
  | .ok ctx =>
    .ok { fs with
          pyStages := dictSet fs.pyStages stageName
            { specVersion := none, content := renderStageFile ctx } }

/-- How an embedded command invocation ends: normal completion (process
status 0), a sys exit with an explicit status, or an uncaught Python
exception (CPython then exits with status 1). -/
inductive Outcome where
  | finished
  | exited (code : Nat)
  | crashed (e : PyErr)
deriving DecidableEq, Repr

/-- The observable result of running one CLI command: how it ended, the
persistent state afterwards, and the user-facing lines echoed. -/
structure CmdResult where
  out : Outcome
  fs : FS
  msgs : List String
deriving DecidableEq, Repr

/-- The warning echoed by create and _create for an existing name. -/
def stageExistsMsg : String :=
  "This stage name already exists. You can list them all with: `$ crmint stages list`"

/-- stages.create (the create command, stages.py lines 143 to 156):
default the name, refuse an existing stage with exit 1, otherwise write
a fresh default stage file. -/
def create (st : SettingsInput) (fs : FS) (stageName : Option String) :
    CmdResult :=
  let name := stageName.getD st.defaultStageName
  if check_stage_file fs name then
    { out := .exited 1, fs := fs, msgs := [stageExistsMsg] }
  else
    match _create_stage_file st fs name none with
    | .error e => { out := .crashed e, fs := fs, msgs := [] }
    | .ok fs2 =>
      { out := .finished, fs := fs2,
        msgs := ["Stage file created: " ++ name ++ ".py"] }

/-- stages._create (stages.py lines 159 to 170), the variant begin
calls: the existing-name branch only echoes the warning and falls
through (pass), so the stage file is written unconditionally. -/
def _create (st : SettingsInput) (fs : FS) (stageName : Option String) :
    CmdResult :=
  let name := stageName.getD st.defaultStageName
  let warn := if check_stage_file fs name then [stageExistsMsg] else []
  match _create_stage_file st fs name none with
  | .error e => { out := .crashed e, fs := fs, msgs := warn }
  | .ok fs2 =>
    { out := .finished, fs := fs2,
      msgs := warn ++ ["Stage file created: " ++ name ++ ".py"] }

/-- stages.migrate (stages.py lines 187 to 210): parse the old stage
file inside a try block whose except clause catches ValueError and
exits 1; report an already-current stage and exit 0; otherwise overlay
the parsed legacy mapping on the default context and write the merged
stage file.  The default-context call sits outside the try block, so a
non-ValueError exception there is uncaught. -/
def migrate (st : SettingsInput) (fs : FS) (stageName : Option String) :
    CmdResult :=
  let name := stageName.getD st.defaultStageName
  match _parse_old_stage_file fs name with
  | .error (.valueError m) => { out := .exited 1, fs := fs, msgs := [m] }
  | .error e => { out := .crashed e, fs := fs, msgs := [] }
  | .ok none =>
    { out := .exited 0, fs := fs,
      msgs := ["Already latest version detected: " ++ name] }
  | .ok (some old) =>
    match _default_stage_context st name with
    | .error e => { out := .crashed e, fs := fs, msgs := [] }
    | .ok ctx =>
      let merged := dictUpdate ctx (old.map (fun p => (p.1, StageValue.str p.2)))
      match _create_stage_file st fs name (some merged) with
      | .error e => { out := .crashed e, fs := fs, msgs := [] }
      | .ok fs2 =>
        { out := .finished, fs := fs2,
          msgs := ["Successfully migrated stage file to: " ++ name ++ ".py"] }

/-- The resolved stage object the cloud commands thread through every
step (after the before_hook enrichment).  The provisioning steps only
splice these strings into command text; the single field whose value
the resource state depends on is database_password, written into the
MySQL user.  All fields default to the empty string so concrete
witnesses are easy to build. -/
structure Stage where
  project_id : String := ""
  gae_project : String := ""
  gae_region : String := ""
  network : String := ""
  network_project : String := ""
  subnet : String := ""
  subnet_region : String := ""
  subnet_cidr : String := ""
  connector : String := ""
  connector_subnet : String := ""
  connector_cidr : String := ""
  connector_min_instances : String := ""
  connector_max_instances : String := ""
  connector_machine_type : String := ""
  database_project : String := ""
  database_instance_name : String := ""
  database_region : String := ""
  database_tier : String := ""
  database_ha_type : String := ""
  database_name : String := ""
  database_username : String := ""
  database_password : String := ""
deriving DecidableEq, Repr

/-- The external control plane state for one stage: one flag per
resource the setup steps probe and create, plus the password the MySQL
user currently carries. -/
structure CloudState where
  appEngine : Bool := false
  vpc : Bool := false
  pscAddress : Bool := false
  peering : Bool := false
  appSubnet : Bool := false
  connectorSubnet : Bool := false
  vpcConnector : Bool := false
  saKeyFile : Bool := false
  mysqlInstance : Bool := false
  mysqlUser : Bool := false
  mysqlUserPassword : Option String := none
  mysqlDatabase : Bool := false
deriving DecidableEq, Repr

/-- One shared.execute_command invocation made by a provisioning step:
a read-only existence check (probe) or any other command (act), with
the description string the source passes. -/
inductive Event where
  | probe (desc : String)
  | act (desc : String)
deriving DecidableEq, Repr

/-- Number of existence probes in a trace. -/
def countProbes (es : List Event) : Nat :=
  (es.filter (fun e => match e with | .probe _ => true | .act _ => false)).length

/-- Number of non-probe command executions in a trace. -/
def countActs (es : List Event) : Nat :=
  (es.filter (fun e => match e with | .probe _ => false | .act _ => true)).length

/-- cloud._check_if_appengine_instance_exists: gcloud app describe,
exit status zero means the resource exists. -/
def _check_if_appengine_instance_exists (w : CloudState) : Bool := w.appEngine

/-- cloud._check_if_vpc_exists. -/
def _check_if_vpc_exists (w : CloudState) : Bool := w.vpc

/-- cloud._check_if_peering_exists. -/
def _check_if_peering_exists (w : CloudState) : Bool := w.peering

/-- cloud._check_if_subnet_exists. -/
def _check_if_subnet_exists (w : CloudState) : Bool := w.appSubnet

/-- cloud._check_if_connector_subnet_exists. -/
def _check_if_connector_subnet_exists (w : CloudState) : Bool := w.connectorSubnet

/-- cloud._check_if_vpc_connector_exists. -/
def _check_if_vpc_connector_exists (w : CloudState) : Bool := w.vpcConnector

/-- cloud._check_if_mysql_instance_exists. -/
def _check_if_mysql_instance_exists (w : CloudState) : Bool := w.mysqlInstance

/-- cloud._check_if_mysql_user_exists. -/
def _check_if_mysql_user_exists (w : CloudState) : Bool := w.mysqlUser

/-- cloud._check_if_mysql_database_exists. -/
def _check_if_mysql_database_exists (w : CloudState) : Bool := w.mysqlDatabase

/-- Modelled from the spec: shared.check_service_account_file
(shared.py is not under src) answers whether the service account key
file already exists; an os-level existence check. -/
def check_service_account_file (w : CloudState) : Bool := w.saKeyFile

/-- cloud.create_appengine: probe, and create the App Engine instance
only on absence. -/
def create_appengine (s : Stage) (w : CloudState) : CloudState × List Event :=
  if _check_if_appengine_instance_exists w then
    (w, [.probe "Check if App Engine already exists"])
  else
    ({ w with appEngine := true },
     [.probe "Check if App Engine already exists",
      .act "Create the App Engine instance"])

/-- cloud.create_vpc: probe the VPC; on absence create the network,
allocate the psc address range, probe the peering and then run either
vpc-peerings connect or vpc-peerings update.  Both peering variants are
executed under the same description string of the source (line 216) and
both leave the peering present. -/
def create_vpc (s : Stage) (w : CloudState) : CloudState × List Event :=
  if _check_if_vpc_exists w then
    (w, [.probe "Check if VPC already exists"])
  else
    let created := { w with vpc := true, pscAddress := true }
    let evs := [Event.probe "Check if VPC already exists",
                Event.act "Create the VPC",
                Event.act "Allocating an IP address range",
                Event.probe "Check if VPC Peering exists",
                Event.act "Creating or updating the private connection"]
    if _check_if_peering_exists created then
      (created, evs)
    else
      ({ created with peering := true }, evs)

/-- cloud.create_subnet: two sequential check-then-create blocks, one
for the application subnet and one for the connector subnet; both
probes carry the same description string of the source. -/
def create_subnet (s : Stage) (w : CloudState) : CloudState × List Event :=
  let first :=
    if _check_if_subnet_exists w then
      (w, [Event.probe "Check if VPC Subnet already exists"])
    else
      ({ w with appSubnet := true },
       [Event.probe "Check if VPC Subnet already exists",
        Event.act "Create the VPC App Subnet"])
  if _check_if_connector_subnet_exists first.1 then
    (first.1, first.2 ++ [Event.probe "Check if VPC Subnet already exists"])
  else
    ({ first.1 with connectorSubnet := true },
     first.2 ++ [Event.probe "Check if VPC Subnet already exists",
                 Event.act "Create the VPC Connector Subnet"])

/-- cloud.create_vpc_connector. -/
def create_vpc_connector (s : Stage) (w : CloudState) : CloudState × List Event :=
  if _check_if_vpc_connector_exists w then
    (w, [.probe "Check if VPC Connector already exists"])
  else
    ({ w with vpcConnector := true },
     [.probe "Check if VPC Connector already exists",
      .act "Create the VPC Connector"])

/-- cloud.create_service_account_key_if_needed. -/
def create_service_account_key_if_needed (s : Stage) (w : CloudState) :
    CloudState × List Event :=
  if check_service_account_file w then
    (w, [.probe "Check if the service account key file exists"])
  else
    ({ w with saKeyFile := true },
     [.probe "Check if the service account key file exists",
      .act "Create the service account key"])

/-- cloud.create_mysql_instance_if_needed. -/
def create_mysql_instance_if_needed (s : Stage) (w : CloudState) :
    CloudState × List Event :=
  if _check_if_mysql_instance_exists w then
    (w, [.probe "Check if MySQL instance already exists"])
  else
    ({ w with mysqlInstance := true },
     [.probe "Check if MySQL instance already exists",
      .act "Creating MySQL instance"])

/-- cloud.create_mysql_user_if_needed: both branches run one gcloud sql
users command; the probe only selects between the create variant and
the set-password variant, so an action executes on every invocation. -/
def create_mysql_user_if_needed (s : Stage) (w : CloudState) :
    CloudState × List Event :=
  if _check_if_mysql_user_exists w then
    ({ w with mysqlUserPassword := some s.database_password },
     [.probe "Check if MySQL user already exists",
      .act "Setting MySQL user\x27s password"])
  else
    ({ w with mysqlUser := true,
              mysqlUserPassword := some s.database_password },
     [.probe "Check if MySQL user already exists",
      .act "Creating MySQL user"])

/-- cloud.create_mysql_database_if_needed. -/
def create_mysql_database_if_needed (s : Stage) (w : CloudState) :
    CloudState × List Event :=
  if _check_if_mysql_database_exists w then
    (w, [.probe "Check if MySQL database already exists"])
  else
    ({ w with mysqlDatabase := true },
     [.probe "Check if MySQL database already exists",
      .act "Creating MySQL database"])

/-- The check-then-act provisioning steps of the setup pipeline (the
steps of cloud.py that wrap an existence probe). -/
inductive StepId where
  | appengine
  | vpc
  | subnet
  | vpcConnector
  | saKey
  | mysqlInstance
  | mysqlUser
  | mysqlDatabase
deriving DecidableEq, Repr

/-- Dispatch a provisioning step identifier to its step function. -/
def runStep : StepId → Stage → CloudState → CloudState × List Event
  | .appengine => create_appengine
  | .vpc => create_vpc
  | .subnet => create_subnet
  | .vpcConnector => create_vpc_connector
  | .saKey => create_service_account_key_if_needed
  | .mysqlInstance => create_mysql_instance_if_needed
  | .mysqlUser => create_mysql_user_if_needed
  | .mysqlDatabase => create_mysql_database_if_needed

/-- The members of the setup component list, cloud.py lines 928 to 941,
named after the step functions. -/
inductive SetupStep where
  | downgradeAppEnginePython
  | activateServices
  | createVpc
  | createSubnet
  | createVpcConnector
  | createAppengine
  | createServiceAccountKeyIfNeeded
  | grantRequiredPermissions
  | createMysqlInstanceIfNeeded
  | createMysqlUserIfNeeded
  | createMysqlDatabaseIfNeeded
  | downloadConfigFiles
deriving DecidableEq, BEq, Repr

/-- The declared setup step list, in source order. -/
def setupComponents : List SetupStep :=
  [.downgradeAppEnginePython,
   .activateServices,
   .createVpc,
   .createSubnet,
   .createVpcConnector,
   .createAppengine,
   .createServiceAccountKeyIfNeeded,
   .grantRequiredPermissions,
   .createMysqlInstanceIfNeeded,
   .createMysqlUserIfNeeded,
   .createMysqlDatabaseIfNeeded,
   .downloadConfigFiles]

/-- Position of a step in the declared setup list. -/
def setupIndex (x : SetupStep) : Nat :=
  setupComponents.findIdx (fun y => y == x)

/-- The members of the deploy component list, cloud.py lines 1006 to
1020. -/
inductive DeployStep where
  | installRequiredPackages
  | displayWorkdir
  | copySrcToWorkdir
  | installBackendsDependencies
  | deployFrontend
  | deployBackends
  | deployDispatchRules
  | downloadCloudSqlProxy
  | startCloudSqlProxy
  | prepareFlaskEnvars
  | runFlaskDbUpgrade
  | runFlaskDbSeeds
  | stopCloudSqlProxy
deriving DecidableEq, BEq, Repr

/-- The declared deploy step list, in source order. -/
def deployComponents : List DeployStep :=
  [.installRequiredPackages,
   .displayWorkdir,
   .copySrcToWorkdir,
   .installBackendsDependencies,
   .deployFrontend,
   .deployBackends,
   .deployDispatchRules,
   .downloadCloudSqlProxy,
   .startCloudSqlProxy,
   .prepareFlaskEnvars,
   .runFlaskDbUpgrade,
   .runFlaskDbSeeds,
   .stopCloudSqlProxy]

/-- The step list the deploy command actually iterates, after the two
skip-flag removals of cloud.py lines 1022 to 1025: list.remove deletes
the first occurrence, guarded by a membership test. -/
def deployStepList (skipDeployBackends skipDeployFrontend : Bool) :
    List DeployStep :=
  let c := deployComponents
  let c := if skipDeployBackends && c.contains .deployBackends then
             c.erase .deployBackends
           else c
  let c := if skipDeployFrontend && c.contains .deployFrontend then
             c.erase .deployFrontend
           else c
  c

/-- cloud.fetch_stage_or_default: default the name, echo a not-found
message and return None when no stage file exists, otherwise return the
(name, stage) pair. -/
def fetch_stage_or_default (fs : FS) (stageName : Option String)
    (defaultName : String) : List String × Option (String × PyStage) :=
  let name := stageName.getD defaultName
  match getPyStage fs name with
  | some stage => ([], some (name, stage))
  | none => (["Stage file \x27" ++ name ++ "\x27 not found."], none)

/-- The TypeError raised by `stage_name, stage = fetch_stage_or_default(...)`
when the callee returns the bare None of cloud.py line 35: tuple
unpacking a non-iterable fails before the `if stage is None` test below
it can run. -/
def unpackNoneErr : PyErr :=
  .typeError "cannot unpack non-iterable NoneType object"

/-- The permission-denied message of cloud.py lines 947 to 949. -/
def ownerRoleDeniedMsg : String :=
  "     This user doesn\x27t have the owner role. \n     Only owners can deploy this application.\n     Exiting setup."

/-- Result of the setup command: outcome, persistent state, echoed
lines and the provisioning steps that were invoked, in order. -/
structure SetupResult where
  out : Outcome
  fs : FS
  msgs : List String
  executed : List SetupStep
deriving DecidableEq, Repr

/-- cloud.setup (the setup command, cloud.py lines 913 to 951).
`ownerRoleConfirmed` is the value of
confirm_authorized_user_owner_role, the status test of the external
gcloud owner-role query; the function itself issues no provisioning
step.  On a missing stage the tuple unpacking of the None return value
raises TypeError.  Setup reads the stage file and never writes any
stage file, so the filesystem passes through unchanged (the only write
to the stage directory in the three source files is
stages._create_stage_file). -/
def setup (fs : FS) (stageName : Option String) (defaultName : String)
    (ownerRoleConfirmed : Bool) : SetupResult :=
  match fetch_stage_or_default fs stageName defaultName with
  | (ms, none) =>
    { out := .crashed unpackNoneErr, fs := fs,
      msgs := ">>>> Setup" :: ms, executed := [] }
  | (ms, some _) =>
    if ownerRoleConfirmed then
      { out := .finished, fs := fs,
        msgs := ">>>> Setup" :: ms ++
          ["     Authorized user confirmed as owner.", "Done."],
        executed := setupComponents }
    else
      { out := .exited 1, fs := fs,
        msgs := ">>>> Setup" :: ms ++ [ownerRoleDeniedMsg],
        executed := [] }

/-- cloud._setup, the variant begin calls: after a successful fetch it
builds its component list, whose fifth entry dereferences the global
name grant_cloud_build_permissions that no module defines, raising
NameError before any step runs; a missing stage raises the same
unpacking TypeError as setup. -/
def _setup (fs : FS) (stageName : Option String) (defaultName : String) :
    CmdResult :=
  match fetch_stage_or_default fs stageName defaultName with
  | (ms, none) => { out := .crashed unpackNoneErr, fs := fs, msgs := ms }
  | (ms, some _) =>
    { out := .crashed (.nameError "grant_cloud_build_permissions"),
      fs := fs, msgs := ms }

/-- Result of the deploy command. -/
structure DeployResult where
  out : Outcome
  fs : FS
  msgs : List String
  executed : List DeployStep
deriving DecidableEq, Repr

/-- cloud.deploy (cloud.py lines 988 to 1029): resolve the stage (the
missing-stage branch raises the unpacking TypeError), compute the step
list with the two skip-flag removals before the loop starts, then run
every remaining step in order.  The deploy steps write only into the
working directory, never into the stage directory, so the stage
filesystem passes through unchanged. -/
def deploy (fs : FS) (stageName : Option String) (defaultName : String)
    (skipDeployBackends skipDeployFrontend : Bool) : DeployResult :=
  match fetch_stage_or_default fs stageName defaultName with
  | (ms, none) =>
    { out := .crashed unpackNoneErr, fs := fs,
      msgs := ">>>> Deploy" :: ms, executed := [] }
  | (ms, some _) =>
    { out := .finished, fs := fs,
      msgs := ">>>> Deploy" :: ms ++ ["Done."],
      executed := deployStepList skipDeployBackends skipDeployFrontend }

/-- cloud._deploy, the variant begin calls: like deploy with no skip
flags. -/
def _deploy (fs : FS) (stageName : Option String) (defaultName : String) :
    DeployResult :=
  match fetch_stage_or_default fs stageName defaultName with
  | (ms, none) =>
    { out := .crashed unpackNoneErr, fs := fs, msgs := ms, executed := [] }
  | (ms, some _) =>
    { out := .finished, fs := fs, msgs := ms ++ ["Done."],
      executed := deployComponents }

/-- cloud.reset (cloud.py lines 1064 to 1093): resolve the stage (same
unpacking TypeError on a missing stage) and run the reset component
list, which reads the stage file and writes only into the working
directory. -/
def reset (fs : FS) (stageName : Option String) (defaultName : String) :
    CmdResult :=
  match fetch_stage_or_default fs stageName defaultName with
  | (ms, none) =>
    { out := .crashed unpackNoneErr, fs := fs,
      msgs := ">>>> Reset pipelines" :: ms }
  | (ms, some _) =>
    { out := .finished, fs := fs,
      msgs := ">>>> Reset pipelines" :: ms ++ ["Done."] }

/-- cloud.begin (cloud.py lines 1096 to 1105): stages._create, then
_setup, then _deploy; an exception or sys exit raised by an earlier
call prevents the later ones. -/
def begin (st : SettingsInput) (fs : FS) (stageName : Option String) :
    CmdResult :=
  let r1 := _create st fs stageName
  match r1.out with
  | .finished =>
    let r2 := _setup r1.fs stageName st.defaultStageName
    match r2.out with
    | .finished =>
      let r3 := _deploy r2.fs stageName st.defaultStageName
      { out := r3.out, fs := r3.fs,
        msgs := ">>>> Starting" :: (r1.msgs ++ r2.msgs ++ r3.msgs) }
    | o => { out := o, fs := r2.fs,
             msgs := ">>>> Starting" :: (r1.msgs ++ r2.msgs) }
  | o => { out := o, fs := r1.fs, msgs := ">>>> Starting" :: r1.msgs }

/-- Boolean substring test on character lists. -/
def listContainsSub (needle hay : List Char) : Bool :=
  hay.tails.any (fun t => needle.isPrefixOf t)

/-- Boolean substring test on strings: does hay contain needle. -/
def strContainsSub (needle hay : String) : Bool :=
  listContainsSub needle.toList hay.toList

/- Concrete fixtures used by witnesses and counterexamples. -/

/-- A concrete settings input: empty environment, fixed fallbacks. -/
def sIn : SettingsInput :=
  { env := [], defaultStageName := "crmint", defaultAppTitle := "Crmint",
    randomPassword := "p0" }

/-- A current-format stage file with no explicit spec_version. -/
def pyDemo : PyStage := { specVersion := none, content := [] }

/-- A current-format stage file tagged with the unsupported v3.0. -/
def pyV3 : PyStage := { specVersion := some "v3.0", content := [] }

/-- A filesystem with no stage files at all. -/
def fsEmpty : FS := { pyStages := [], shStages := [] }

/-- A filesystem holding the current-format stage demo. -/
def fsDemo : FS := { pyStages := [("demo", pyDemo)], shStages := [] }

/-- A filesystem holding the v3.0-tagged stage demo. -/
def fsV3 : FS := { pyStages := [("demo", pyV3)], shStages := [] }

/-- A filesystem holding only a legacy (v1) stage demo whose sourced
output sets the database tier. -/
def fsLegacy : FS :=
  { pyStages := [], shStages := [("demo", "database_tier=db-n1-standard-2")] }

/-- A concrete stage object, all parameters empty. -/
def stage0 : Stage := {}

/-- The control plane with no resource present. -/
def cloud0 : CloudState := {}

/- Helper lemmas shared by several proofs. -/

/-- Building the default stage context always raises AttributeError on
SUBNET_REGION, the first dict entry that reads a settings attribute
settings.py never assigns. -/
theorem default_stage_context_err (st : SettingsInput) (name : String) :
    _default_stage_context st name = .error (.attributeError "SUBNET_REGION") := rfl

/-- Writing a stage file with the default context therefore always
fails, for every settings input and every name. -/
theorem create_stage_file_default_err (st : SettingsInput) (fs : FS)
    (name : String) :
    _create_stage_file st fs name none = .error (.attributeError "SUBNET_REGION") := by
  simp [_create_stage_file, default_stage_context_err]

/-- stages._create always crashes before writing: the existence warning
is only echoed, and the unconditional write attempt dies in
_default_stage_context. -/
theorem _create_crashes (st : SettingsInput) (fs : FS) (nm : Option String) :
    (_create st fs nm).out = .crashed (.attributeError "SUBNET_REGION")
    ∧ (_create st fs nm).fs = fs := by
  simp [_create, create_stage_file_default_err]

/-- The boolean read of an environment-derived setting is true exactly
when the variable is set to the compared literal, provided the fallback
default differs from that literal. -/
theorem getenv_eq_true_iff (e : List (String × String)) (k d target : String)
    (hd : (d == target) = false) :
    (((dictLookup e k).getD d == target) = true) ↔ dictLookup e k = some target := by
  cases h : dictLookup e k with
  | none => simp [hd]
  | some v => simp

/-- Claim C10: the default-template database HA flag is true exactly
when the environment variable DATABASE_HA_ENABLED is set to the string
False; when the variable is unset or set to True the flag is false.
Every other boolean setting (DEBUG, DATABASE_PUBLIC_IP,
DATABASE_BACKUP_ENABLED) has the opposite polarity: true exactly when
its variable is set to True. -/
theorem c10_database_ha_polarity (st : SettingsInput) :
    (DATABASE_HA_ENABLED st = true ↔
      dictLookup st.env "DATABASE_HA_ENABLED" = some "False")
    ∧ (DEBUG st = true ↔ dictLookup st.env "DEBUG" = some "True")
    ∧ (DATABASE_PUBLIC_IP st = true ↔
      dictLookup st.env "DATABASE_PUBLIC_IP" = some "True")
    ∧ (DATABASE_BACKUP_ENABLED st = true ↔
      dictLookup st.env "DATABASE_BACKUP_ENABLED" = some "True") := by
  refine ⟨?_, ?_, ?_, ?_⟩
  · simpa [DATABASE_HA_ENABLED, osGetenv] using
      getenv_eq_true_iff st.env "DATABASE_HA_ENABLED" "True" "False" (by decide)
  · simpa [DEBUG, osGetenv] using
      getenv_eq_true_iff st.env "DEBUG" "False" "True" (by decide)
  · simpa [DATABASE_PUBLIC_IP, osGetenv] using
      getenv_eq_true_iff st.env "DATABASE_PUBLIC_IP" "False" "True" (by decide)
  · simpa [DATABASE_BACKUP_ENABLED, osGetenv] using
      getenv_eq_true_iff st.env "DATABASE_BACKUP_ENABLED" "False" "True" (by decide)

/-- Claim C3: for every stage whose current-format file carries a
version tag outside the supported set, the migrate command catches the
ValueError raised by detection, echoes its message, exits with status 1
and leaves the filesystem (hence every persisted configuration)
unchanged. -/
theorem c3_unsupported_version_rejection (st : SettingsInput) (fs : FS)
    (name v : String) (stage : PyStage)
    (hstage : getPyStage fs name = some stage)
    (hv : stage.specVersion = some v)
    (hout : v ∉ SUPPORTED_STAGE_VERSIONS) :
    migrate st fs (some name) =
      { out := .exited 1, fs := fs, msgs := [unsupportedVersionMsg v] } := by
  simp [migrate, _parse_old_stage_file, _detect_stage_version, hstage, hv, hout]

/-- Witness for C3: the v3.0-tagged stage demo satisfies the
hypotheses, and migrating it exits 1 without writing. -/
theorem c3_unsupported_version_rejection_witness :
    (getPyStage fsV3 "demo" = some pyV3
      ∧ pyV3.specVersion = some "v3.0"
      ∧ "v3.0" ∉ SUPPORTED_STAGE_VERSIONS)
    ∧ migrate sIn fsV3 (some "demo") =
      { out := .exited 1, fs := fsV3, msgs := [unsupportedVersionMsg "v3.0"] } :=
  ⟨⟨by decide, by decide, by decide⟩,
   c3_unsupported_version_rejection sIn fsV3 "demo" "v3.0" pyV3
     (by decide) (by decide) (by decide)⟩

/-- Claim C2 (code bug): migrating the legacy stage demo parses the
legacy mapping with database_tier = db-n1-standard-2, but then the
default-context build raises an uncaught AttributeError on the missing
settings attribute SUBNET_REGION, so the command crashes and no merged
current-schema file is written. -/
theorem c2_migrate_legacy_crashes :
    _parse_old_stage_file fsLegacy "demo" =
      .ok (some [("database_tier", "db-n1-standard-2")])
    ∧ migrate sIn fsLegacy (some "demo") =
      { out := .crashed (.attributeError "SUBNET_REGION"),
        fs := fsLegacy, msgs := [] } :=
  ⟨rfl, by decide⟩

/-- Claim C9 (code bug): create-stage on an existing name exits 1
without writing, as claimed; but on a fresh name it crashes with the
AttributeError on SUBNET_REGION instead of writing the default stage
file, and the filesystem is unchanged. -/
theorem c9_create_stage_eval :
    create sIn fsDemo (some "demo") =
      { out := .exited 1, fs := fsDemo, msgs := [stageExistsMsg] }
    ∧ create sIn fsEmpty (some "demo") =
      { out := .crashed (.attributeError "SUBNET_REGION"),
        fs := fsEmpty, msgs := [] } :=
  ⟨by decide, by decide⟩

/-- Counterexample to claim C1 as stated: at the empty control plane,
the second invocation of the subnet step performs two existence probes,
not exactly one (it probes the application subnet and the connector
subnet), and the second invocation of the MySQL-user step performs one
non-probe action (the set-password creation variant), not zero.  The
end state is nevertheless unchanged by the second invocation. -/
theorem c1_counterexample :
    (create_subnet stage0 (create_subnet stage0 cloud0).1).1 =
        (create_subnet stage0 cloud0).1
    ∧ countProbes (create_subnet stage0 (create_subnet stage0 cloud0).1).2 = 2
    ∧ ¬ countProbes (create_subnet stage0 (create_subnet stage0 cloud0).1).2 = 1
    ∧ countActs
        (create_mysql_user_if_needed stage0
          (create_mysql_user_if_needed stage0 cloud0).1).2 = 1
    ∧ ¬ countActs
        (create_mysql_user_if_needed stage0
          (create_mysql_user_if_needed stage0 cloud0).1).2 = 0 := by
  decide

/-- Claim C1, amended: for every check-then-act provisioning step of
the setup pipeline and every stage and control-plane state, running the
step twice in sequence produces the same end resource state as running
it once, and the second invocation performs zero creation actions and
only existence probes — one probe per sub-resource, so the subnet step
performs exactly two probes and every other step exactly one — except
the MySQL-user step, whose second invocation performs one idempotent
set-password action after its single probe. -/
theorem c1_second_run_idempotent (step : StepId) (s : Stage) (w : CloudState) :
    (runStep step s (runStep step s w).1).1 = (runStep step s w).1
    ∧ countActs (runStep step s (runStep step s w).1).2 =
        (match step with | .mysqlUser => 1 | _ => 0)
    ∧ countProbes (runStep step s (runStep step s w).1).2 =
        (match step with | .subnet => 2 | _ => 1) := by
  cases step
  case appengine =>
    cases h : w.appEngine <;>
      simp [runStep, create_appengine, _check_if_appengine_instance_exists,
            h, countActs, countProbes]
  case vpc =>
    cases h : w.vpc <;> cases hp : w.peering <;>
      simp [runStep, create_vpc, _check_if_vpc_exists,
            _check_if_peering_exists, h, hp, countActs, countProbes]
  case subnet =>
    cases h : w.appSubnet <;> cases hc : w.connectorSubnet <;>
      simp [runStep, create_subnet, _check_if_subnet_exists,
            _check_if_connector_subnet_exists, h, hc, countActs, countProbes]
  case vpcConnector =>
    cases h : w.vpcConnector <;>
      simp [runStep, create_vpc_connector, _check_if_vpc_connector_exists,
            h, countActs, countProbes]
  case saKey =>
    cases h : w.saKeyFile <;>
      simp [runStep, create_service_account_key_if_needed,
            check_service_account_file, h, countActs, countProbes]
  case mysqlInstance =>
    cases h : w.mysqlInstance <;>
      simp [runStep, create_mysql_instance_if_needed,
            _check_if_mysql_instance_exists, h, countActs, countProbes]
  case mysqlUser =>
    cases h : w.mysqlUser <;>
      simp [runStep, create_mysql_user_if_needed,
            _check_if_mysql_user_exists, h, countActs, countProbes]
  case mysqlDatabase =>
    cases h : w.mysqlDatabase <;>
      simp [runStep, create_mysql_database_if_needed,
            _check_if_mysql_database_exists, h, countActs, countProbes]

/-- Claim C4: when the setup command resolves a stage and the
owner-role guard evaluates false, no provisioning step from the setup
component list executes and the process exits with status 1. -/
theorem c4_guard_short_circuit (fs : FS) (sn : Option String) (dn : String)
    (g : Bool)
    (hstage : check_stage_file fs (sn.getD dn) = true)
    (hg : g = false) :
    (setup fs sn dn g).executed = [] ∧ (setup fs sn dn g).out = .exited 1 := by
  subst hg
  rcases hs : getPyStage fs (sn.getD dn) with _ | stg
  · simp [check_stage_file, hs] at hstage
  · simp [setup, fetch_stage_or_default, hs]

/-- Witness for C4: the stage demo exists, the guard is false, and
setup runs no step and exits 1. -/
theorem c4_guard_short_circuit_witness :
    check_stage_file fsDemo "demo" = true
    ∧ (setup fsDemo (some "demo") "crmint" false).executed = []
    ∧ (setup fsDemo (some "demo") "crmint" false).out = .exited 1 :=
  ⟨by decide,
   (c4_guard_short_circuit fsDemo (some "demo") "crmint" false
     (by decide) rfl).1,
   (c4_guard_short_circuit fsDemo (some "demo") "crmint" false
     (by decide) rfl).2⟩

/-- Claim C5: the deploy command computes its step list before the
execution loop starts; the executed list with a skip flag set equals
the declared component list with exactly that step erased, all other
steps keeping their original relative order. -/
theorem c5_skip_flag_removal :
    (∀ (fs : FS) (sn : Option String) (dn : String) (sb sf : Bool)
       (stg : PyStage), getPyStage fs (sn.getD dn) = some stg →
         (deploy fs sn dn sb sf).executed = deployStepList sb sf)
    ∧ deployStepList true false = deployComponents.erase .deployBackends
    ∧ deployStepList false true = deployComponents.erase .deployFrontend
    ∧ deployStepList true true =
        (deployComponents.erase .deployBackends).erase .deployFrontend
    ∧ deployStepList false false = deployComponents
    ∧ deployStepList true false =
        [.installRequiredPackages, .displayWorkdir, .copySrcToWorkdir,
         .installBackendsDependencies, .deployFrontend, .deployDispatchRules,
         .downloadCloudSqlProxy, .startCloudSqlProxy, .prepareFlaskEnvars,
         .runFlaskDbUpgrade, .runFlaskDbSeeds, .stopCloudSqlProxy]
    ∧ deployStepList false true =
        [.installRequiredPackages, .displayWorkdir, .copySrcToWorkdir,
         .installBackendsDependencies, .deployBackends, .deployDispatchRules,
         .downloadCloudSqlProxy, .startCloudSqlProxy, .prepareFlaskEnvars,
         .runFlaskDbUpgrade, .runFlaskDbSeeds, .stopCloudSqlProxy] := by
  refine ⟨?_, by decide, by decide, by decide, by decide, by decide, by decide⟩
  intro fs sn dn sb sf stg h
  simp [deploy, fetch_stage_or_default, h]

/-- Witness for C5: with the stage demo present and skipBackends set,
the executed deploy list is the precomputed skip list. -/
theorem c5_skip_flag_removal_witness :
    getPyStage fsDemo "demo" = some pyDemo
    ∧ (deploy fsDemo (some "demo") "crmint" true false).executed =
        deployStepList true false :=
  ⟨by decide,
   c5_skip_flag_removal.1 fsDemo (some "demo") "crmint" true false pyDemo
     (by decide)⟩

/-- Counterexample to claim C6 as stated: in the declared setup list
the database-creation step (create_mysql_instance_if_needed) does not
precede the connector-creation step (create_vpc_connector), so the
claimed chain network before database before connector before compute
fails on its middle links. -/
theorem c6_counterexample :
    ¬ (setupIndex .createVpc < setupIndex .createMysqlInstanceIfNeeded
       ∧ setupIndex .createMysqlInstanceIfNeeded <
           setupIndex .createVpcConnector
       ∧ setupIndex .createVpcConnector < setupIndex .createAppengine) := by
  decide

/-- Claim C6, amended: in the declared setup list the network-creation
step precedes the connector-creation step, the connector-creation step
precedes the compute (App Engine) creation step, and the compute step
precedes the database-creation step; in particular network creation
still precedes database creation. -/
theorem c6_setup_order :
    setupIndex .createVpc < setupIndex .createVpcConnector
    ∧ setupIndex .createVpcConnector < setupIndex .createAppengine
    ∧ setupIndex .createAppengine < setupIndex .createMysqlInstanceIfNeeded
    ∧ setupIndex .createVpc < setupIndex .createMysqlInstanceIfNeeded := by
  decide

/-- Claim C7 (code bug): invoking setup on the stage demo with no
persisted file echoes the not-found message and then crashes with the
TypeError raised by unpacking the bare None that fetch_stage_or_default
returns (CPython exits with status 1 on the uncaught error); no step
runs, no file is written, and no emitted message contains the substring
create, so nothing references the create-stage command. -/
theorem c7_setup_missing_stage :
    setup fsEmpty (some "demo") "crmint" true =
      { out := .crashed unpackNoneErr, fs := fsEmpty,
        msgs := [">>>> Setup", "Stage file \x27demo\x27 not found."],
        executed := [] }
    ∧ ((setup fsEmpty (some "demo") "crmint" true).msgs.all
        (fun m => !(strContainsSub "create" m))) = true := by
  exact ⟨by decide, by decide⟩

/-- Claim C8: for every existing stage configuration, no operation
other than explicit migration rewrites its persisted file, so the
database password stored in it is never regenerated or overwritten:
create refuses an existing name, the begin operation crashes inside
stages._create before its unconditional rewrite can happen (the
missing-settings AttributeError fires before the file write), and
setup, deploy and reset never write to the stage directory. -/
theorem c8_stage_file_never_rewritten (st : SettingsInput) (fs : FS)
    (name : String) (c : PyStage)
    (hc : getPyStage fs name = some c) :
    (∀ other : Option String, getPyStage ((create st fs other).fs) name = some c)
    ∧ (∀ other : Option String, getPyStage ((begin st fs other).fs) name = some c)
    ∧ (∀ sn dn g, (setup fs sn dn g).fs = fs)
    ∧ (∀ sn dn sb sf, (deploy fs sn dn sb sf).fs = fs)
    ∧ (∀ sn dn, (reset fs sn dn).fs = fs) := by
  refine ⟨?_, ?_, ?_, ?_, ?_⟩
  · intro other
    unfold create
    cases h : check_stage_file fs (other.getD st.defaultStageName) <;>
      simp [h, create_stage_file_default_err, hc]
  · intro other
    have h1 := _create_crashes st fs other
    simp [begin, h1.1, h1.2, hc]
  · intro sn dn g
    rcases hs : getPyStage fs (sn.getD dn) with _ | stg <;>
      cases g <;> simp [setup, fetch_stage_or_default, hs]
  · intro sn dn sb sf
    rcases hs : getPyStage fs (sn.getD dn) with _ | stg <;>
      simp [deploy, fetch_stage_or_default, hs]
  · intro sn dn
    rcases hs : getPyStage fs (sn.getD dn) with _ | stg <;>
      simp [reset, fetch_stage_or_default, hs]

/-- Witness for C8: the stage demo exists, and neither create, begin,
setup, deploy nor reset changes it. -/
theorem c8_stage_file_never_rewritten_witness :
    getPyStage fsDemo "demo" = some pyDemo
    ∧ getPyStage ((create sIn fsDemo (some "demo")).fs) "demo" = some pyDemo
    ∧ getPyStage ((begin sIn fsDemo (some "demo")).fs) "demo" = some pyDemo
    ∧ (setup fsDemo (some "demo") "crmint" true).fs = fsDemo
    ∧ (deploy fsDemo (some "demo") "crmint" false false).fs = fsDemo
    ∧ (reset fsDemo (some "demo") "crmint").fs = fsDemo :=
  ⟨by decide,
   (c8_stage_file_never_rewritten sIn fsDemo "demo" pyDemo (by decide)).1
     (some "demo"),
   (c8_stage_file_never_rewritten sIn fsDemo "demo" pyDemo (by decide)).2.1
     (some "demo"),
   (c8_stage_file_never_rewritten sIn fsDemo "demo" pyDemo (by decide)).2.2.1
     (some "demo") "crmint" true,
   (c8_stage_file_never_rewritten sIn fsDemo "demo" pyDemo (by decide)).2.2.2.1
     (some "demo") "crmint" false false,
   (c8_stage_file_never_rewritten sIn fsDemo "demo" pyDemo (by decide)).2.2.2.2
     (some "demo") "crmint"⟩

end Crmint
